import Mathlib

/-!
Verification development for the pancreatic-cancer risk predictor backend.

Shallow embedding of the core pipeline of the repository:
feature normalization, range validation, the deterministic rule-based risk
scorer, the synthetic (mock) SHAP attribution ranker, the text-integrity
repair function, the Russian patient fallback narrative, and the batch /
calibration aggregator.

Python float values are modelled as exact rationals (`ℚ`); the transcendental
parts of the computation (`math.exp`, `math.sin`) are modelled over `ℝ` with
`Real.exp` / `Real.sin`.  Machine floating point rounding is not modelled;
none of the properties proved here depend on it.
-/

set_option maxHeartbeats 1000000

namespace PancreaticPredictor

/-! ## Core constants (backend/core/constants.py, backend/services/model_engine.py) -/

/-- Source: `FEATURE_DEFAULTS` from backend/core/constants.py: the canonical ordered
list of the 13 biomarker keys with their declared default values. -/
def FEATURE_DEFAULTS : List (String × ℚ) :=
  [("wbc", 5.8), ("rbc", 4.0), ("plt", 184.0), ("hgb", 127.0), ("hct", 40.0),
   ("mpv", 11.0), ("pdw", 16.0), ("mono", 0.42), ("baso_abs", 0.01),
   ("baso_pct", 0.2), ("glucose", 6.3), ("act", 26.0), ("bilirubin", 17.0)]

/-- Source: `MEDICAL_RANGES` from backend/services/model_engine.py: conservative
inclusive reference ranges keyed by biomarker. -/
def MEDICAL_RANGES : List (String × (ℚ × ℚ)) :=
  [("wbc", (4.0, 11.0)), ("rbc", (4.0, 5.5)), ("plt", (150, 450)),
   ("hgb", (110, 170)), ("hct", (32, 52)), ("mpv", (7.0, 13.0)),
   ("pdw", (9.0, 20.0)), ("mono", (0.1, 1.2)), ("baso_abs", (0.0, 0.2)),
   ("baso_pct", (0.0, 3.0)), ("glucose", (3.5, 7.5)), ("act", (10, 45)),
   ("bilirubin", (3, 25))]

/-- Source: `FEATURE_NAMES` from backend/services/model_engine.py: the English labels
of the 13 features, in canonical order (from `FEATURE_LABELS["en"]`). -/
def FEATURE_NAMES : List String :=
  ["White blood cell count", "Red blood cell count", "Platelets", "Hemoglobin",
   "Hematocrit", "Mean platelet volume", "Platelet distribution width",
   "Monocytes fraction", "Basophils (absolute)", "Basophils (%)",
   "Fasting glucose", "Activated clotting time", "Total bilirubin"]

/-- A 13-element feature vector in canonical order, mirroring the 13-way tuple
unpacking at the top of `_rule_based_prediction`
(backend/services/model_engine.py). -/
structure Features where
  wbc : ℚ
  rbc : ℚ
  plt : ℚ
  hgb : ℚ
  hct : ℚ
  mpv : ℚ
  pdw : ℚ
  mono : ℚ
  baso_abs : ℚ
  baso_pct : ℚ
  glucose : ℚ
  act : ℚ
  bilirubin : ℚ
deriving DecidableEq

/-- The feature vector as the canonically ordered value list
(`features: List[float]` in the Python code). -/
def Features.toList (f : Features) : List ℚ :=
  [f.wbc, f.rbc, f.plt, f.hgb, f.hct, f.mpv, f.pdw, f.mono, f.baso_abs,
   f.baso_pct, f.glucose, f.act, f.bilirubin]

/-- Rebuild a `Features` record from the canonically ordered value list,
mirroring the tuple unpacking `(wbc, rbc, ..., bilirubin) = features`. -/
def features_from_list (l : List ℚ) : Features :=
  { wbc := l.getD 0 0, rbc := l.getD 1 0, plt := l.getD 2 0, hgb := l.getD 3 0,
    hct := l.getD 4 0, mpv := l.getD 5 0, pdw := l.getD 6 0, mono := l.getD 7 0,
    baso_abs := l.getD 8 0, baso_pct := l.getD 9 0, glucose := l.getD 10 0,
    act := l.getD 11 0, bilirubin := l.getD 12 0 }

/-! ## Rule-based risk scorer (`_rule_based_prediction`,
backend/services/model_engine.py lines 136-193).

The Python code accumulates `risk_score` through a sequence of
`if`/`elif` blocks, each adding a fixed increment; the sum below lists the
eight blocks in source order, each rendered as its `if`/`elif` conditional
expression. -/

/-- The additive `risk_score` of `_rule_based_prediction`. -/
def risk_score (f : Features) : ℚ :=
  (if f.bilirubin > 20 then 0.35 else if f.bilirubin > 15 then 0.2 else 0)
  + (if f.glucose > 6.5 then 0.25 else if f.glucose > 5.8 then 0.15 else 0)
  + (if f.plt > 350 then 0.2 else if f.plt < 180 then 0.15 else 0)
  + (if f.wbc > 9.0 then 0.15 else if f.wbc < 4.5 then 0.1 else 0)
  + (if f.hgb < 130 then 0.15 else if f.hgb < 110 then 0.25 else 0)
  + (if f.act > 35 then 0.1 else 0)
  + (if f.mpv > 10.0 then 0.1 else 0)
  + (if f.mono > 0.6 then 0.1 else 0)

/-- Source: `scaled_score = max(-3.0, min(3.0, risk_score * 3.0 - 1.0))`. -/
def scaled_score (f : Features) : ℚ :=
  max (-3.0) (min 3.0 (risk_score f * 3.0 - 1.0))

/-- The logistic function `1 / (1 + math.exp(-x))`. -/
noncomputable def sigmoid (x : ℝ) : ℝ := 1 / (1 + Real.exp (-x))

/-- Source: `probability = max(0.1, min(0.95, 1 / (1 + exp(-scaled_score))))`. -/
noncomputable def rb_probability (f : Features) : ℝ :=
  max 0.1 (min 0.95 (sigmoid ((scaled_score f : ℚ) : ℝ)))

/-- Source: `prediction = 1 if probability > 0.5 else 0`. -/
noncomputable def rb_prediction (f : Features) : ℕ :=
  if rb_probability f > 0.5 then 1 else 0

/-- Source: `_rule_based_prediction`: returns the `(prediction, probability)` pair. -/
noncomputable def rule_based_prediction (f : Features) : ℕ × ℝ :=
  (rb_prediction f, rb_probability f)

/-- The scenario input of the specification: bilirubin 25, glucose 7.0,
plt 360, all other biomarkers nominal (crossing no scorer threshold). -/
def scenario_input : Features :=
  { wbc := 5.8, rbc := 4.0, plt := 360, hgb := 140, hct := 40, mpv := 9.5,
    pdw := 16, mono := 0.42, baso_abs := 0.01, baso_pct := 0.2, glucose := 7.0,
    act := 26, bilirubin := 25 }

/-- An input engineered so that features 8 (baso_abs) and 9 (baso_pct) have
exactly equal synthetic-attribution values: their weighted deviations agree
(`(-5/82 - 0.01) * 0.5 = (-127/820 - 0.2) * 0.1 = -291/8200`) and their
perturbation sine arguments agree (`(-5/82 + 1) * 9 = (-127/820 + 1) * 10`),
exhibiting an importance tie. -/
def tie_input : Features :=
  { wbc := 5.8, rbc := 4.0, plt := 184.0, hgb := 127.0, hct := 40.0,
    mpv := 11.0, pdw := 16.0, mono := 0.42, baso_abs := -5/82,
    baso_pct := -127/820, glucose := 6.3, act := 26.0, bilirubin := 17.0 }

/-! ## Range validator (`validate_medical_data`,
backend/services/model_engine.py lines 109-119). -/

/-- One violation entry.  The Python code formats it as the string
`f"{feature.upper()}: {value} outside normal range ({min_val}-{max_val})"`;
the record below carries exactly the data interpolated into that string. -/
structure Violation where
  feature : String
  value : ℚ
  min_val : ℚ
  max_val : ℚ
deriving DecidableEq

/-- The accumulation loop of `validate_medical_data`: for every key present in
`MEDICAL_RANGES`, append a violation when the value is outside the inclusive
range; never fail fast. -/
def collect_violations : List (String × ℚ) → List Violation
  | [] => []
  | (feature, value) :: rest =>
    match MEDICAL_RANGES.lookup feature with
    | some (min_val, max_val) =>
      if ¬ (min_val ≤ value ∧ value ≤ max_val) then
        ⟨feature, value, min_val, max_val⟩ :: collect_violations rest
      else collect_violations rest
    | none => collect_violations rest

/-- Source: `validate_medical_data`: returns `(len(errors) == 0, errors)`. -/
def validate_medical_data (data : List (String × ℚ)) : Bool × List Violation :=
  let errors := collect_violations data
  (errors.length == 0, errors)

/-! ## Feature normalizer (`parse_patient_inputs`,
backend/services/pipeline.py lines 9-24). -/

/-- A raw payload value: a number, a string, or Python `None`. -/
inductive RawValue where
  | num (q : ℚ)
  | str (s : String)
  | none
deriving DecidableEq

/-- Numeric value of a digit list (most significant first). -/
def digits_val (cs : List Char) : ℕ :=
  cs.foldl (fun n c => 10 * n + (c.toNat - '0'.toNat)) 0

/-- Model of Python `float(string)` restricted to optionally signed plain
decimal literals (`[+-]?digits[.digits]`, `[+-]?.digits`); exponents,
`inf`/`nan` and surrounding whitespace are not modelled.  All string inputs
considered in this development are of this restricted form. -/
def pyFloat? (s : String) : Option ℚ :=
  let cs := s.toList
  let signRest : ℚ × List Char :=
    match cs with
    | '+' :: t => (1, t)
    | '-' :: t => (-1, t)
    | t => (1, t)
  let sign := signRest.1
  let intPart := signRest.2.takeWhile Char.isDigit
  let rest := signRest.2.dropWhile Char.isDigit
  match rest with
  | [] => if intPart.isEmpty then Option.none else some (sign * digits_val intPart)
  | '.' :: frac =>
    if frac.all Char.isDigit ∧ ¬ (intPart.isEmpty ∧ frac.isEmpty) then
      some (sign * ((digits_val intPart : ℚ) + (digits_val frac : ℚ) / (10 ^ frac.length)))
    else Option.none
  | _ => Option.none

/-- Model of Python `float(raw)` together with the exception text raised on
failure (the CPython messages: the `ValueError` text for a string names the
raw value, the `TypeError` text for `None` names only the type). -/
def float_coerce : RawValue → Except String ℚ
  | .num q => .ok q
  | .str s =>
    match pyFloat? s with
    | some q => .ok q
    | Option.none => .error ("could not convert string to float: '" ++ s ++ "'")
  | .none => .error "float() argument must be a string or a number, not 'NoneType'"

/-- Source: `payload.get(key, default)`: the raw value chosen for a canonical key. -/
def raw_chosen (payload : List (String × RawValue)) (key : String) (default : ℚ) : RawValue :=
  match payload.lookup key with
  | some r => r
  | Option.none => RawValue.num default

/-- The loop of `parse_patient_inputs` over a canonical `(key, default)` list:
coerce each chosen raw value, short-circuiting on the first failure
(the Python `ValueError` propagates immediately, so no partial vector can be
returned). -/
def parse_inputs_go (payload : List (String × RawValue)) :
    List (String × ℚ) → Except String (List ℚ × List (String × ℚ))
  | [] => .ok ([], [])
  | (key, default) :: rest =>
    match float_coerce (raw_chosen payload key default) with
    | .error e => .error e
    | .ok value =>
      match parse_inputs_go payload rest with
      | .error e => .error e
      | .ok (features, normalized) => .ok (value :: features, (key, value) :: normalized)

/-- Source: `parse_patient_inputs`: convert an incoming payload into the canonical
feature list and normalized mapping, all-or-nothing. -/
def parse_patient_inputs (payload : List (String × RawValue)) :
    Except String (List ℚ × List (String × ℚ)) :=
  parse_inputs_go payload FEATURE_DEFAULTS

/-! ## Text-integrity repair (`repair_text_encoding`, backend/utils/text.py
lines 18-52).  Strings are modelled as lists of Unicode code points. -/

/-- The `_MOJIBAKE_MARKERS` character class `[ÃÂÐÑ]` (U+00C3, U+00C2,
U+00D0, U+00D1). -/
def is_marker (c : ℕ) : Bool :=
  c = 0xC3 ∨ c = 0xC2 ∨ c = 0xD0 ∨ c = 0xD1

/-- Source: `_MOJIBAKE_MARKERS.search(s)`. -/
def has_marker (s : List ℕ) : Bool := s.any is_marker

/-- Source: `count_cyr`: number of code points in the Cyrillic block U+0400-U+04FF. -/
def count_cyr (s : List ℕ) : ℕ :=
  (s.filter (fun c => 0x400 ≤ c ∧ c ≤ 0x4FF)).length

/-- Source: `count_gib`: number of mojibake marker characters. -/
def count_gib (s : List ℕ) : ℕ := (s.filter is_marker).length

/-- Source: `s.encode("latin-1", "ignore")`: keep code points ≤ 0xFF as bytes,
silently dropping the rest. -/
def latin1_encode (s : List ℕ) : List ℕ := s.filter (· ≤ 0xFF)

/-- UTF-8 continuation byte. -/
def is_cont (b : ℕ) : Bool := 0x80 ≤ b ∧ b ≤ 0xBF

/-- Decode one UTF-8 scalar starting at lead byte `b1` followed by `rest`:
returns the code point and the number of continuation bytes consumed, or
`none` when `b1` does not start a well-formed sequence there (overlong
encodings and surrogates rejected). -/
def utf8_decode_head (b1 : ℕ) (rest : List ℕ) : Option (ℕ × ℕ) :=
  if b1 < 0x80 then some (b1, 0)
  else if 0xC2 ≤ b1 ∧ b1 ≤ 0xDF then
    match rest with
    | b2 :: _ =>
      if is_cont b2 then some ((b1 - 0xC0) * 64 + (b2 - 0x80), 1) else Option.none
    | [] => Option.none
  else if 0xE0 ≤ b1 ∧ b1 ≤ 0xEF then
    match rest with
    | b2 :: b3 :: _ =>
      if is_cont b2 ∧ is_cont b3 ∧ (b1 = 0xE0 → 0xA0 ≤ b2) ∧ (b1 = 0xED → b2 ≤ 0x9F) then
        some ((b1 - 0xE0) * 4096 + (b2 - 0x80) * 64 + (b3 - 0x80), 2)
      else Option.none
    | _ => Option.none
  else if 0xF0 ≤ b1 ∧ b1 ≤ 0xF4 then
    match rest with
    | b2 :: b3 :: b4 :: _ =>
      if is_cont b2 ∧ is_cont b3 ∧ is_cont b4 ∧ (b1 = 0xF0 → 0x90 ≤ b2) ∧ (b1 = 0xF4 → b2 ≤ 0x8F) then
        some ((b1 - 0xF0) * 262144 + (b2 - 0x80) * 4096 + (b3 - 0x80) * 64 + (b4 - 0x80), 3)
      else Option.none
    | _ => Option.none
  else Option.none

/-- The decoding loop, structurally recursive on a fuel bound so that it
reduces definitionally; every step consumes at least one byte, so a fuel of
the byte count is enough. -/
def utf8_decode_go : ℕ → List ℕ → List ℕ
  | 0, _ => []
  | _ + 1, [] => []
  | fuel + 1, b1 :: rest =>
    match utf8_decode_head b1 rest with
    | some (cp, k) => cp :: utf8_decode_go fuel (rest.drop k)
    | Option.none => utf8_decode_go fuel rest

/-- Source: `bytes.decode("utf-8", "ignore")`: decode well-formed UTF-8 sequences,
silently skipping a byte that does not start a well-formed sequence.  All
byte strings decoded in this development consist solely of well-formed
two-byte sequences and ASCII. -/
def utf8_decode_ignore (l : List ℕ) : List ℕ := utf8_decode_go l.length l

/-- One mojibake re-decoding candidate:
`out.encode("latin-1", "ignore").decode("utf-8", "ignore")`. -/
def mojibake_pass (s : List ℕ) : List ℕ := utf8_decode_ignore (latin1_encode s)

/-- The `for _ in range(3)` loop of `repair_text_encoding`: while markers are
present, re-decode; accept the candidate when it strictly increases the
Cyrillic count or when markers were present in the current string (the
latter always holds inside the loop), else stop. -/
def repair_passes : ℕ → List ℕ → List ℕ
  | 0, out => out
  | n + 1, out =>
    if has_marker out then
      let candidate := mojibake_pass out
      if count_cyr candidate > count_cyr out ∨ count_gib out > 0 then
        repair_passes n candidate
      else out
    else out

/-- The `_CTRL_CHARS` class `[\x00-\x08\x0B-\x0C\x0E-\x1F]` (ASCII control
characters other than tab, newline and carriage return). -/
def is_ctrl (c : ℕ) : Bool :=
  c ≤ 0x08 ∨ c = 0x0B ∨ c = 0x0C ∨ (0x0E ≤ c ∧ c ≤ 0x1F)

/-- Source: `_CTRL_CHARS.sub(" ", out)`: replace each maximal run of control
characters with a single space (a run's space is emitted at its last
character). -/
def strip_ctrl : List ℕ → List ℕ
  | [] => []
  | [c] => if is_ctrl c then [0x20] else [c]
  | c :: d :: rest =>
    if is_ctrl c then
      if is_ctrl d then strip_ctrl (d :: rest)
      else 0x20 :: strip_ctrl (d :: rest)
    else c :: strip_ctrl (d :: rest)

/-- Modelled: `unicodedata.normalize("NFC", out)` from the Python standard
library.  NFC is the identity on strings containing no decomposable or
combining sequences; every string analysed in this development is of that
form, so the model takes NFC to be the identity. -/
def nfc (s : List ℕ) : List ℕ := s

/-- Source: `repair_text_encoding`: up to 3 mojibake re-decoding passes, then control
character removal, then NFC normalization. -/
def repair_text_encoding (s : List ℕ) : List ℕ :=
  nfc (strip_ctrl (repair_passes 3 s))

/-- The Cyrillic letter б (U+0431) after one round of UTF-8/Latin-1 mojibake:
the string "Ð±". -/
def moji_level1 : List ℕ := [0xD0, 0xB1]

/-- The same letter after four rounds of mojibake: each additional round
re-encodes the previous string as UTF-8 and re-reads the bytes as Latin-1. -/
def moji_level4 : List ℕ :=
  [0xC3, 0x83, 0xC2, 0x83, 0xC3, 0x82, 0xC2, 0x90, 0xC3, 0x83, 0xC2, 0x82,
   0xC3, 0x82, 0xC2, 0xB1]

/-! ## Explainability ranker (`calculate_shap_analysis` and
`_mock_shap_calculation`, backend/services/model_engine.py lines 195-259). -/

/-- One attribution record: the dictionary
`{"feature": ..., "value": ..., "impact": ..., "importance": ...}`. -/
structure ShapRecord where
  feature : String
  value : ℝ
  impact : String
  importance : ℝ

/-- Python `round(x, 3)` (the tie-breaking convention differs from Python's
round-half-even only at exact half-thousandth ties, on which nothing here
depends). -/
noncomputable def round3 (x : ℝ) : ℝ := ((round (x * 1000) : ℤ) : ℝ) / 1000

/-- The record built by the real-SHAP path of `calculate_shap_analysis` for
the value at index `idx`. -/
noncomputable def real_shap_record (idx : ℕ) (value : ℝ) : ShapRecord :=
  { feature := FEATURE_NAMES.getD idx "",
    value := value,
    impact := if 0 < value then "positive" else "negative",
    importance := |value| }

/-- The real-SHAP path of `calculate_shap_analysis`: wrap each per-feature
attribution value into a record, direction from sign. -/
noncomputable def real_shap_records (values : List ℝ) : List ShapRecord :=
  values.enum.map (fun p => real_shap_record p.1 p.2)

/-- The `feature_impacts` list of `_mock_shap_calculation`: per-feature
weighted deviations from the clinical normal values (`FEATURE_DEFAULTS`),
with larger weights once a value crosses the corresponding clinical
threshold. -/
def feature_impacts (f : Features) : List ℚ :=
  [(f.wbc - 5.8) * 0.12,
   (4.0 - f.rbc) * 0.1,
   (f.plt - 184.0) * 0.002,
   (127.0 - f.hgb) * 0.004,
   (40.0 - f.hct) * 0.003,
   if f.mpv > 10.0 then (f.mpv - 11.0) * 0.05 else (f.mpv - 11.0) * 0.01,
   (f.pdw - 16.0) * 0.02,
   if f.mono > 0.6 then (f.mono - 0.42) * 0.3 else (f.mono - 0.42) * 0.1,
   (f.baso_abs - 0.01) * 0.5,
   (f.baso_pct - 0.2) * 0.1,
   if f.glucose > 6.5 then (f.glucose - 6.3) * 0.15 else (f.glucose - 6.3) * 0.05,
   if f.act > 35 then (f.act - 26.0) * 0.01 else (f.act - 26.0) * 0.005,
   if f.bilirubin > 20 then (f.bilirubin - 17.0) * 0.08 else (f.bilirubin - 17.0) * 0.03]

/-- Source: `final_value = impact_value + noise` where
`noise = math.sin((raw_value + 1) * (idx + 1) * 0.37) * 0.006`. -/
noncomputable def mock_final (f : Features) (idx : ℕ) : ℝ :=
  ((feature_impacts f).getD idx 0 : ℝ) +
    Real.sin ((((f.toList.getD idx 0 : ℚ) : ℝ) + 1) * ((idx : ℝ) + 1) * 0.37) * 0.006

/-- The record appended by `_mock_shap_calculation` for feature index `idx`. -/
noncomputable def mk_mock_record (f : Features) (idx : ℕ) : ShapRecord :=
  { feature := FEATURE_NAMES.getD idx "",
    value := round3 (mock_final f idx),
    impact := if 0 < mock_final f idx then "positive" else "negative",
    importance := |mock_final f idx| }

/-- The `shap_values` list before sorting: one record per feature index
(the `for idx, ... in enumerate(zip(FEATURE_NAMES, feature_impacts))` loop
runs over exactly the 13 features). -/
noncomputable def mock_shap_records (f : Features) : List ShapRecord :=
  (List.range 13).map (mk_mock_record f)

/-- The comparison realising
`shap_values.sort(key=lambda item: item["importance"], reverse=True)`:
Python's sort is a stable mergesort, and a stable descending sort by key is a
stable mergesort with the "greater-or-equal key" relation. -/
noncomputable def mock_le (a b : ShapRecord) : Bool :=
  decide (b.importance ≤ a.importance)

/-- Source: `_mock_shap_calculation`: sort by importance descending (stably) and
truncate to the top 9. -/
noncomputable def mock_shap_calculation (f : Features) : List ShapRecord :=
  ((mock_shap_records f).mergeSort mock_le).take 9

/-! ## Calibration curve (`_calibration_curve`, backend/services/batch.py
lines 52-95).  A calibration point is a `(predicted probability, 0/1 label)`
pair; Python float probabilities are modelled as exact rationals. -/

/-- One entry of `bins_data`; the Python `"bin"` string
`f"{lower:.2f}-{upper:.2f}"` is carried as the `(lower, upper)` pair it
formats. -/
structure CalBin where
  lower : ℚ
  upper : ℚ
  count : ℕ
  avg_prob : Option ℚ
  observed_rate : Option ℚ
deriving DecidableEq

/-- The dictionary returned by `_calibration_curve`. -/
structure CalibrationResult where
  bins : List CalBin
  sampled : ℕ
  brier_score : Option ℚ
deriving DecidableEq

/-- Python `round(x, 6)` (round-half-even differs from the convention used
here only at exact half-millionth ties, on which nothing here depends). -/
def py_round6 (q : ℚ) : ℚ := ((round (q * 1000000) : ℤ) : ℚ) / 1000000

/-- Source: `lower = idx / bins`. -/
def bin_lower (bins idx : ℕ) : ℚ := (idx : ℚ) / (bins : ℚ)

/-- Source: `upper = 1.0 if idx == bins - 1 else (idx + 1) / bins`. -/
def bin_upper (bins idx : ℕ) : ℚ :=
  if idx = bins - 1 then 1 else ((idx : ℚ) + 1) / (bins : ℚ)

/-- The bucket membership test of `_calibration_curve`:
`p >= lower and (p < upper or (idx == bins - 1 and p <= upper))`. -/
def in_bin (bins idx : ℕ) (p : ℚ) : Bool :=
  decide (bin_lower bins idx ≤ p ∧
    (p < bin_upper bins idx ∨ (idx = bins - 1 ∧ p ≤ bin_upper bins idx)))

/-- The `bins_data` entry for bin `idx`. -/
def mk_cal_bin (points : List (ℚ × ℤ)) (bins idx : ℕ) : CalBin :=
  let lower := bin_lower bins idx
  let upper := bin_upper bins idx
  let bucket := points.filter (fun pl => in_bin bins idx pl.1)
  if bucket.isEmpty then
    ⟨lower, upper, 0, Option.none, Option.none⟩
  else
    ⟨lower, upper, bucket.length,
      some ((bucket.map Prod.fst).sum / (bucket.length : ℚ)),
      some (((bucket.map (fun pl => (pl.2 : ℚ))).sum) / (bucket.length : ℚ))⟩

/-- Source: `_calibration_curve(points, bins)`.  The Python default is `bins = 5`;
callers passing no argument correspond to `calibration_curve points 5`. -/
def calibration_curve (points : List (ℚ × ℤ)) (bins : ℕ) : CalibrationResult :=
  if points.isEmpty then ⟨[], 0, Option.none⟩
  else
    let total := points.length
    let brier_sum := (points.map (fun pl => (pl.1 - (pl.2 : ℚ)) ^ 2)).sum
    ⟨(List.range bins).map (mk_cal_bin points bins), total,
      some (py_round6 (brier_sum / (total : ℚ)))⟩

/-- Python `str.upper()` for the ASCII strings used here, implemented by
character mapping so that it reduces definitionally. -/
def str_upper (s : String) : String := (s.toList.map Char.toUpper).asString

/-- Python `str.capitalize()`: first character uppercased, the rest
lowercased (ASCII). -/
def str_capitalize (s : String) : String :=
  match s.toList with
  | [] => s
  | c :: rest => (Char.toUpper c :: rest.map Char.toLower).asString

/-! ## Diagnostic pipeline (`execute_diagnostic_pipeline`,
backend/services/pipeline.py lines 27-88).

The embedding models the deployment state the claims are about: no serialized
estimator is present (`model is None`), so scoring is rule-based and
attribution is synthetic.  The clinical-commentary text, its base64 transport
encoding and the static `model_metrics` dictionary are presentation fields
that no claim touches; they are omitted from the analysis record. -/

/-- The error payloads `execute_diagnostic_pipeline` can return: the
`"Invalid numeric values in request data"` payload carrying `str(exc)` as
details, or the `"Medical data validation failed"` payload carrying every
violation. -/
inductive PipelineError where
  | invalid_numeric (details : String)
  | validation_failed (violations : List Violation)
deriving DecidableEq

/-- The analysis fields of a successful `execute_diagnostic_pipeline` run
used by the batch aggregator. -/
structure Analysis where
  prediction : ℕ
  probability : ℝ
  risk_level : String
  patient_values : List (String × ℚ)
  shap_values : List ShapRecord

/-- Source: `"High" if probability > 0.7 else "Moderate" if probability > 0.3 else
"Low"`. -/
noncomputable def risk_level_of (p : ℝ) : String :=
  if p > 0.7 then "High" else if p > 0.3 then "Moderate" else "Low"

/-- Source: `execute_diagnostic_pipeline`: parse, validate, then score with the
rule-based strategy and rank with the synthetic attribution strategy. -/
noncomputable def execute_diagnostic_pipeline (payload : List (String × RawValue)) :
    Except PipelineError Analysis :=
  match parse_patient_inputs payload with
  | .error e => .error (.invalid_numeric e)
  | .ok (features, normalized) =>
    let vres := validate_medical_data normalized
    if vres.1 = false then .error (.validation_failed vres.2)
    else
      let f := features_from_list features
      let pp := rule_based_prediction f
      .ok { prediction := pp.1, probability := pp.2,
            risk_level := risk_level_of pp.2,
            patient_values := normalized,
            shap_values := mock_shap_calculation f }

/-! ## Batch aggregator (`process_batch_csv`, `_safe_float`,
`_normalize_row`, `_parse_label`, backend/services/batch.py).

A CSV data row is modelled as an association list from column name to cell,
where a cell is `none` for Python `None` and `some s` for the string `s`
(CSV parsing mechanics are outside the modelled core). -/

/-- A CSV data row. -/
def Row : Type := List (String × Option String)

/-- Source: `_safe_float(value, default)`: coerce to float, silently falling back to
the declared default on `TypeError` (None) or `ValueError` (unparsable
string). -/
def safe_float (value : Option String) (default : ℚ) : ℚ :=
  match value with
  | Option.none => default
  | some s =>
    match pyFloat? s with
    | some q => q
    | Option.none => default

/-- The candidate-casing loop of `_normalize_row`: the first of
`key, key.upper(), key.capitalize()` present in the row with a cell that is
neither `None` nor the empty string. -/
def pick_value (row : Row) : List String → Option String
  | [] => Option.none
  | c :: cs =>
    match List.lookup c row with
    | some (some s) => if s ≠ "" then some s else pick_value row cs
    | _ => pick_value row cs

/-- Source: `_normalize_row`: map every canonical key to `_safe_float` of the picked
cell. -/
def normalize_row (row : Row) : List (String × ℚ) :=
  FEATURE_DEFAULTS.map (fun kd =>
    (kd.1, safe_float (pick_value row [kd.1, str_upper kd.1, str_capitalize kd.1]) kd.2))

/-- Python `int(q)`: truncation toward zero. -/
def py_int_trunc (q : ℚ) : ℤ := if 0 ≤ q then ⌊q⌋ else ⌈q⌉

/-- The candidate loop of `_parse_label`: first label column present; a
coercion failure returns `None` immediately, a value other than 0/1 falls
through to the next candidate. -/
def parse_label_go (row : Row) : List String → Option ℤ
  | [] => Option.none
  | c :: cs =>
    match List.lookup c row with
    | some cell =>
      match cell with
      | Option.none => Option.none
      | some s =>
        match pyFloat? s with
        | Option.none => Option.none
        | some q =>
          let v := py_int_trunc q
          if v = 0 ∨ v = 1 then some v else parse_label_go row cs
    | Option.none => parse_label_go row cs

/-- Source: `_parse_label`: look for `label`, `target`, `y`, `outcome`. -/
def parse_label (row : Row) : Option ℤ :=
  parse_label_go row ["label", "target", "y", "outcome"]

/-- One successful entry of the batch `results` list (the fields the claims
concern; `metrics` and the optional commentary transport field are static /
presentation data). -/
structure BatchResultRow where
  row : ℕ
  prediction : ℕ
  probability : ℝ
  risk_level : String
  patient_values : List (String × ℚ)
  shap_values : List ShapRecord

/-- One entry of the batch `errors` list: the 1-based row index and the
pipeline error payload it reports. -/
structure RowError where
  row : ℕ
  error : PipelineError

/-- The per-row accumulators of the `process_batch_csv` loop. -/
structure BatchState where
  results : List BatchResultRow
  errors : List RowError
  calibration_points : List (ℝ × ℤ)

/-- The initial accumulators. -/
def init_batch_state : BatchState := ⟨[], [], []⟩

/-- The text of the row-limit `ValueError`. -/
def row_limit_msg (max_rows : ℕ) : String :=
  "Row limit exceeded (max " ++ toString max_rows ++ ")"

/-- The `for idx, row in enumerate(reader, start=1)` loop of
`process_batch_csv`.  The Python function raises `ValueError` on the limit
check; the error value below carries, alongside the message, the accumulator
state at the moment of the raise, so that theorems can speak about how many
rows had already been processed — a caller of the Python function observes
only the exception. -/
noncomputable def process_rows (max_rows : ℕ) :
    List Row → ℕ → BatchState → Except (String × BatchState) BatchState
  | [], _, st => .ok st
  | row :: rest, idx, st =>
    if idx > max_rows then .error (row_limit_msg max_rows, st)
    else
      let payload := (normalize_row row).map (fun kv => (kv.1, RawValue.num kv.2))
      match execute_diagnostic_pipeline payload with
      | .error e =>
        process_rows max_rows rest (idx + 1) { st with errors := st.errors ++ [⟨idx, e⟩] }
      | .ok analysis =>
        let st' :=
          match parse_label row with
          | some l => { st with calibration_points :=
              st.calibration_points ++ [(analysis.probability, l)] }
          | Option.none => st
        process_rows max_rows rest (idx + 1)
          { st' with results := st'.results ++
              [⟨idx, analysis.prediction, analysis.probability, analysis.risk_level,
                analysis.patient_values, analysis.shap_values⟩] }

/-- Source: `DEFAULT_MAX_RECORDS`: `int(os.getenv("MAX_BATCH_RECORDS", "250") or
"250")` in the default environment. -/
def DEFAULT_MAX_RECORDS : ℕ := 250

/-- Source: `max_rows = max_records or DEFAULT_MAX_RECORDS`: Python `or` also maps an
explicit `0` to the default. -/
def effective_cap (max_records : Option ℕ) : ℕ :=
  match max_records with
  | Option.none => DEFAULT_MAX_RECORDS
  | some 0 => DEFAULT_MAX_RECORDS
  | some k => k

/-- Source: `process_batch_csv` restricted to its row-processing core: the CSV has
already been split into data rows (decoding, header checks and the
post-processing summary/calibration assembly carry no per-row control
flow). -/
noncomputable def process_batch_csv (rows : List Row) (max_records : Option ℕ) :
    Except (String × BatchState) BatchState :=
  process_rows (effective_cap max_records) rows 1 init_batch_state

/-! ## Fallback narrative for locale "ru", audience "patient"
(`_generate_fallback_commentary`, backend/services/commentary.py lines
109-233, with the `COMMENTARY_LOCALE["ru"]["patient"]` bundle from
backend/core/constants.py lines 655-764).

For `language="ru"`, `client_type="patient"` the audience-classification
lines resolve to `locale_code="ru"`, `scientist_mode=False`,
`is_professional=False`, so `audience_bundle = COMMENTARY_LOCALE["ru"]
["patient"]` and the patient layout branch is taken; the embedding inlines
that resolution and transcribes the selected bundle in full.  Bundles not on
this path are not needed by the claims and are not transcribed. -/

/-- Source: `COMMENTARY_LOCALE["ru"]["risk_labels"]` with the
`.get(risk_level, risk_level.upper())` fallback. -/
def ru_risk_label (risk : String) : String :=
  if risk = "High" then "ВЫСОКИЙ"
  else if risk = "Moderate" then "УМЕРЕННЫЙ"
  else if risk = "Low" then "НИЗКИЙ"
  else str_upper risk

/-- Source: `RU_FEATURE_LABELS` from backend/core/constants.py. -/
def RU_FEATURE_LABELS : List (String × String) :=
  [("WBC", "Количество белых кровяных клеток"),
   ("RBC", "Количество красных кровяных клеток"),
   ("PLT", "Тромбоциты"),
   ("HGB", "Гемоглобин"),
   ("HCT", "Гематокрит"),
   ("MPV", "Средний объем тромбоцита"),
   ("PDW", "Ширина распределения тромбоцитов"),
   ("MONO", "Фракция моноцитов"),
   ("BASO_ABS", "Базофилы (абсолютное)"),
   ("BASO_PCT", "Базофилы (%)"),
   ("GLUCOSE", "Глюкоза натощак"),
   ("ACT", "Время активации свертывания"),
   ("BILIRUBIN", "Общий билирубин")]

/-- Python `str.title()` restricted to ASCII letters: capitalize each letter
that does not follow a letter, lowercase the rest. -/
def py_title_go : List Char → Bool → List Char
  | [], _ => []
  | c :: rest, prevAlpha =>
    if c.isAlpha then
      (if prevAlpha then c.toLower else c.toUpper) :: py_title_go rest true
    else c :: py_title_go rest false

/-- Source: `feature_key.replace('_', ' ').title()`. -/
def py_title (s : String) : String := (py_title_go s.toList false).asString

/-- The ru-patient `impact_terms` lookup with the
`if impact_key not in impact_terms: impact_key = 'neutral'` normalization
(the key is lowercased first). -/
def ru_impact_term (impact : String) : String :=
  let key := impact.toLower
  if key = "positive" then "повышает риск"
  else if key = "negative" then "снижает риск"
  else "нейтральное влияние"

/-- Zero-padding of the three fractional digits of `f"{x:+.3f}"`. -/
def pad3 (n : ℕ) : String :=
  if n < 10 then "00" ++ toString n
  else if n < 100 then "0" ++ toString n
  else toString n

/-- Python `f"{x:+.3f}"` (tie-breaking aside). -/
noncomputable def format_signed_3 (x : ℝ) : String :=
  let sign := if x < 0 then "-" else "+"
  let n : ℤ := round (|x| * 1000)
  sign ++ toString (n / 1000) ++ "." ++ pad3 (n % 1000).toNat

/-- Python `f"{p:.1%}"` (tie-breaking aside). -/
noncomputable def format_pct (p : ℝ) : String :=
  let n : ℤ := round (p * 1000)
  toString (n / 10) ++ "." ++ toString (n % 10).toNat ++ "%"

/-- Source: `probability_label` of the ru patient bundle. -/
def ru_patient_probability_label : String := "Оценка риска"

/-- Source: `header_template = "ЛИЧНЫЙ ОТЧЕТ | {risk} РИСК"`, formatted. -/
def ru_patient_header (risk_label : String) : String :=
  "ЛИЧНЫЙ ОТЧЕТ | " ++ risk_label ++ " РИСК"

/-- Source: `drivers_title` of the ru patient bundle. -/
def ru_patient_drivers_title : String := "ОСНОВНЫЕ СИГНАЛЫ"

/-- Source: `default_driver` of the ru patient bundle. -/
def ru_patient_default_driver : String := "Дополнительный показатель в пределах нормы"

/-- Source: `core_title` of the ru patient bundle. -/
def ru_patient_core_title : String := "ГЛАВНОЕ СООБЩЕНИЕ"

/-- Source: `core_message[risk]`, with `{probability}` interpolated and the
`.get(risk_level, core_map.get('Low', ''))` fallback. -/
def ru_patient_core_message (risk : String) (pct : String) : String :=
  if risk = "High" then
    "ИИ оценивает высокий риск значимого поражения поджелудочной железы (" ++ pct ++
      "). Это не диагноз, но требуется срочно продолжить обследование вместе с врачом."
  else if risk = "Moderate" then
    "ИИ видит умеренный риск проблем с поджелудочной железой (" ++ pct ++
      "). Важно оставаться начеку и согласовать дальнейшие шаги с лечащим специалистом."
  else
    "ИИ показывает низкий риск рака поджелудочной железы сейчас (" ++ pct ++
      "). Это обнадеживает, но продолжайте делиться обновлениями с медкомандой."

/-- Source: `next_steps_title` of the ru patient bundle. -/
def ru_patient_next_steps_title : String := "СЛЕДУЮЩИЕ ШАГИ"

/-- Source: `next_steps[risk]` with the `.get(risk_level, .get('Low', []))`
fallback. -/
def ru_patient_next_steps (risk : String) : List String :=
  if risk = "High" then
    ["Запишитесь к профильному специалисту в течение 1–2 недель и поделитесь этим отчетом.",
     "Будьте готовы к детальным исследованиям (КТ/МРТ, эндоскопическое УЗИ).",
     "Спросите у врача о необходимых анализах крови, например CA 19-9.",
     "Записывайте новые симптомы, прием лекарств и семейный анамнез для обсуждения на приеме."]
  else if risk = "Moderate" then
    ["Назначьте повторный прием в ближайшие недели для обсуждения результатов.",
     "Уточните, нужны ли визуализация или повторные анализы при изменении симптомов.",
     "Следите за пищеварением, весом и уровнем энергии, фиксируйте изменения.",
     "Соберите предыдущие анализы и снимки, чтобы врач мог сравнить динамику."]
  else
    ["Обсудите этот отчет на следующем плановом визите.",
     "Поддерживайте регулярные профилактические обследования по рекомендациям врача.",
     "Соблюдайте здоровый образ жизни: питание, активность, отказ от курения.",
     "Будьте внимательны к новым симптомам и сообщайте врачу при их появлении."]

/-- Source: `warnings_title` of the ru patient bundle. -/
def ru_patient_warnings_title : String := "СРОЧНО ОБРАТИТЬСЯ К ВРАЧУ"

/-- Source: `warning_signs` of the ru patient bundle. -/
def ru_patient_warning_signs : List String :=
  ["Пожелтение кожи или глаз.",
   "Сильная боль в животе или спине, которая не проходит.",
   "Очень темная моча, светлый стул или резкая потеря веса.",
   "Частая тошнота, рвота или внезапные скачки сахара."]

/-- Source: `support_title` of the ru patient bundle. -/
def ru_patient_support_title : String := "ПОДДЕРЖКА И РЕСУРСЫ"

/-- Source: `support` of the ru patient bundle. -/
def ru_patient_support : List String :=
  ["Опирайтесь на семью, друзей или группы поддержки для эмоциональной помощи.",
   "Сохраняйте мягкий рацион, пейте достаточно жидкости и отдыхайте пока ждете следующие шаги.",
   "Немедленно обращайтесь за медицинской помощью при выраженных тревожных признаках."]

/-- Source: `timeline_title` of the ru patient bundle. -/
def ru_patient_timeline_title : String := "ПЛАН НАБЛЮДЕНИЯ"

/-- Source: `timeline[risk]` with the `.get(risk_level, .get('Low', []))` fallback. -/
def ru_patient_timeline (risk : String) : List String :=
  if risk = "High" then
    ["1–2 недели: консультация специалиста и согласование полного обследования.",
     "2–4 недели: прохождение визуализации и, при необходимости, эндоскопии и биопсии.",
     "Каждый визит: сообщайте врачу обо всех симптомах и принимаемых препаратах.",
     "После каждого этапа: обсуждайте результаты и следующий шаг лечения."]
  else if risk = "Moderate" then
    ["Месяц 1: контрольный визит и повторные анализы по рекомендации врача.",
     "Месяцы 2–3: при необходимости пройти визуализацию для уточнения картины.",
     "Ежеквартально: делитесь изменениями веса, сахара и самочувствия.",
     "При новом семейном анамнезе или симптомах: сообщите врачу сразу."]
  else
    ["Раз в 6–12 месяцев: обсуждение профилактических анализов и обследований.",
     "Каждый плановый визит: делитесь любыми изменениями самочувствия.",
     "При появлении новых симптомов: связывайтесь с врачом раньше плановой даты.",
     "Ежедневно: поддерживайте здоровые привычки и контроль хронических состояний."]

/-- Source: `questions_title` of the ru patient bundle. -/
def ru_patient_questions_title : String := "ВОПРОСЫ ДЛЯ ВРАЧА"

/-- Source: `questions` of the ru patient bundle. -/
def ru_patient_questions : List String :=
  ["Какие обследования мне нужны в ближайшее время?",
   "Когда следует повторить анализы или обратиться раньше планового визита?",
   "Какие симптомы или показатели мне стоит отслеживать дома?"]

/-- Source: `reminder_title` of the ru patient bundle. -/
def ru_patient_reminder_title : String := "ВАЖНО"

/-- Source: `reminder_text` of the ru patient bundle. -/
def ru_patient_reminder_text : String :=
  "Покажите этот отчет своей медицинской команде. Только они подтверждают диагноз и выбирают лечение."

/-- One top-factor bullet line:
`f"- {feature_label}: {impact_phrase} ({value_str})"`, with the feature label
looked up in `RU_FEATURE_LABELS` and the `replace('_',' ').title()`
fallback. -/
noncomputable def ru_top_factor_line (sv : ShapRecord) : String :=
  let feature_key := str_upper sv.feature
  let feature_label :=
    match RU_FEATURE_LABELS.lookup feature_key with
    | some l => l
    | Option.none => py_title (feature_key.replace "_" " ")
  "- " ++ feature_label ++ ": " ++ ru_impact_term sv.impact ++
    " (" ++ format_signed_3 sv.value ++ ")"

/-- The `top_factor_lines` list: one bullet per record of `shap_values[:5]`,
then the `while len(top_factor_lines) < 5` padding with the default-driver
bullet. -/
noncomputable def ru_top_factor_lines (shap : List ShapRecord) : List String :=
  let lines := (shap.take 5).map ru_top_factor_line
  lines ++ List.replicate (5 - lines.length) ("- " ++ ru_patient_default_driver)

/-- The ordered line list assembled by the patient branch of
`_generate_fallback_commentary` for locale "ru", audience "patient". -/
noncomputable def fallback_lines_ru_patient (probability : ℝ)
    (shap : List ShapRecord) : List String :=
  let risk_level := risk_level_of probability
  let probability_pct := format_pct probability
  [ru_patient_header (ru_risk_label risk_level),
   ru_patient_probability_label ++ ": " ++ probability_pct,
   "",
   ru_patient_core_title,
   ru_patient_core_message risk_level probability_pct,
   "",
   ru_patient_drivers_title]
  ++ ru_top_factor_lines shap
  ++ [""]
  ++ [ru_patient_next_steps_title]
  ++ (ru_patient_next_steps risk_level).map (fun item => "- " ++ item)
  ++ [""]
  ++ [ru_patient_warnings_title]
  ++ ru_patient_warning_signs.map (fun item => "- " ++ item)
  ++ [""]
  ++ [ru_patient_support_title]
  ++ ru_patient_support.map (fun item => "- " ++ item)
  ++ [""]
  ++ [ru_patient_timeline_title]
  ++ (ru_patient_timeline risk_level).map (fun item => "- " ++ item)
  ++ [""]
  ++ [ru_patient_questions_title]
  ++ ru_patient_questions.map (fun q => "- " ++ q)
  ++ [""]
  ++ [ru_patient_reminder_title, ru_patient_reminder_text]

/-- Source: `_generate_fallback_commentary(prediction, probability, shap_values,
language="ru", client_type="patient")`: the newline-joined narrative (the
`prediction` argument is unused by the Python function body as well). -/
noncomputable def generate_fallback_commentary_ru_patient (prediction : ℕ)
    (probability : ℝ) (shap : List ShapRecord) : String :=
  let _ := prediction
  String.intercalate "\n" (fallback_lines_ru_patient probability shap)

/-- A CSV data row whose only supplied biomarker is an in-range wbc. -/
def row_ok : Row := [("wbc", some "5.0")]

/-- The same row plus a deliberately un-coercible bilirubin cell. -/
def row_bad : Row := [("wbc", some "5.0"), ("bilirubin", some "abc")]

/-! # Theorems -/

unseal Rat.ofScientific Rat.add Rat.sub Rat.mul Rat.inv

/-! ## Helper lemmas for the range validator -/

theorem collect_violations_complete :
    ∀ (data : List (String × ℚ)) (k : String) (v mn mx : ℚ),
      (k, v) ∈ data → MEDICAL_RANGES.lookup k = some (mn, mx) →
      ¬ (mn ≤ v ∧ v ≤ mx) →
      (⟨k, v, mn, mx⟩ : Violation) ∈ collect_violations data := by
  intro data
  induction data with
  | nil => intro k v mn mx h; simp at h
  | cons hd tl ih =>
    intro k v mn mx hmem hlk hout
    obtain ⟨k', v'⟩ := hd
    rcases List.mem_cons.mp hmem with heq | htl
    · obtain ⟨hk, hv⟩ := Prod.mk.injEq .. ▸ heq
      subst hk; subst hv
      simp only [collect_violations, hlk, hout, if_true, not_false_iff]
      exact List.mem_cons_self _ _
    · have hrec := ih k v mn mx htl hlk hout
      simp only [collect_violations]
      cases hlk' : MEDICAL_RANGES.lookup k' with
      | none => exact hrec
      | some p =>
        obtain ⟨mn', mx'⟩ := p
        by_cases hc : ¬ (mn' ≤ v' ∧ v' ≤ mx')
        · simp only [hc, if_true]
          exact List.mem_cons_of_mem _ hrec
        · simp only [hc, if_false]
          exact hrec

theorem collect_violations_sound :
    ∀ (data : List (String × ℚ)), ∀ e ∈ collect_violations data,
      (e.feature, e.value) ∈ data ∧
      MEDICAL_RANGES.lookup e.feature = some (e.min_val, e.max_val) ∧
      ¬ (e.min_val ≤ e.value ∧ e.value ≤ e.max_val) := by
  intro data
  induction data with
  | nil => intro e he; simp [collect_violations] at he
  | cons hd tl ih =>
    intro e he
    obtain ⟨k', v'⟩ := hd
    simp only [collect_violations] at he
    split at he
    · rename_i mn' mx' heq
      split at he
      · rename_i hc
        rcases List.mem_cons.mp he with heq2 | htl
        · subst heq2
          exact ⟨List.mem_cons_self _ _, heq, hc⟩
        · obtain ⟨h1, h2, h3⟩ := ih e htl
          exact ⟨List.mem_cons_of_mem _ h1, h2, h3⟩
      · obtain ⟨h1, h2, h3⟩ := ih e he
        exact ⟨List.mem_cons_of_mem _ h1, h2, h3⟩
    · obtain ⟨h1, h2, h3⟩ := ih e he
      exact ⟨List.mem_cons_of_mem _ h1, h2, h3⟩

/-- C4: for every normalized biomarker mapping, `validate_medical_data`
returns `(is_valid, violations)` with `is_valid` false iff `violations` is
non-empty, and `violations` contains the entry recording key, value and
inclusive bounds for every key of the static reference-range table whose
value lies outside its range (no fail-fast), and nothing else. -/
theorem c4_range_validator (data : List (String × ℚ)) :
    ((validate_medical_data data).1 = true ↔ (validate_medical_data data).2 = []) ∧
    (∀ (k : String) (v mn mx : ℚ), (k, v) ∈ data →
      MEDICAL_RANGES.lookup k = some (mn, mx) → ¬ (mn ≤ v ∧ v ≤ mx) →
      (⟨k, v, mn, mx⟩ : Violation) ∈ (validate_medical_data data).2) ∧
    (∀ e ∈ (validate_medical_data data).2,
      (e.feature, e.value) ∈ data ∧
      MEDICAL_RANGES.lookup e.feature = some (e.min_val, e.max_val) ∧
      ¬ (e.min_val ≤ e.value ∧ e.value ≤ e.max_val)) := by
  refine ⟨?_, ?_, ?_⟩
  · simp only [validate_medical_data, beq_iff_eq, List.length_eq_zero]
  · intro k v mn mx hmem hlk hout
    exact collect_violations_complete data k v mn mx hmem hlk hout
  · intro e he
    exact collect_violations_sound data e he

/-- Witness for C4 at a concrete mapping with two simultaneous out-of-range
biomarkers: both violations appear and the mapping is flagged invalid. -/
theorem c4_range_validator_witness :
    (⟨"plt", 500, 150, 450⟩ : Violation) ∈
      (validate_medical_data [("plt", 500), ("glucose", 8), ("wbc", 5)]).2 ∧
    (⟨"glucose", 8, 3.5, 7.5⟩ : Violation) ∈
      (validate_medical_data [("plt", 500), ("glucose", 8), ("wbc", 5)]).2 ∧
    (validate_medical_data [("plt", 500), ("glucose", 8), ("wbc", 5)]).1 = false := by
  refine ⟨?_, ?_, by decide⟩
  · exact (c4_range_validator [("plt", 500), ("glucose", 8), ("wbc", 5)]).2.1
      "plt" 500 150 450 (by decide) (by decide) (by decide)
  · exact (c4_range_validator [("plt", 500), ("glucose", 8), ("wbc", 5)]).2.1
      "glucose" 8 3.5 7.5 (by decide) (by decide) (by decide)

/-! ## Helper lemmas for text repair -/

theorem strip_ctrl_no_ctrl : ∀ (l : List ℕ), ∀ c ∈ strip_ctrl l, is_ctrl c = false := by
  intro l
  induction l with
  | nil => intro c hc; simp [strip_ctrl] at hc
  | cons a t ih =>
    intro c hc
    cases t with
    | nil =>
      by_cases ha : is_ctrl a = true
      · simp only [strip_ctrl, ha, if_true] at hc
        simp only [List.mem_singleton] at hc
        subst hc; decide
      · simp only [Bool.not_eq_true] at ha
        simp only [strip_ctrl, ha, Bool.false_eq_true, if_false,
          List.mem_singleton] at hc
        subst hc
        exact ha
    | cons d rest =>
      by_cases ha : is_ctrl a = true
      · by_cases hd : is_ctrl d = true
        · simp only [strip_ctrl, ha, hd, if_true] at hc
          exact ih c hc
        · simp only [Bool.not_eq_true] at hd
          simp only [strip_ctrl, ha, hd, if_true, Bool.false_eq_true, if_false] at hc
          rcases List.mem_cons.mp hc with heq | htl
          · subst heq; decide
          · exact ih c htl
      · simp only [Bool.not_eq_true] at ha
        simp only [strip_ctrl, ha, Bool.false_eq_true, if_false] at hc
        rcases List.mem_cons.mp hc with heq | htl
        · subst heq; exact ha
        · exact ih c htl

theorem strip_ctrl_clean :
    ∀ (l : List ℕ), (∀ c ∈ l, is_ctrl c = false) → strip_ctrl l = l := by
  intro l
  induction l with
  | nil => intro _; rfl
  | cons a t ih =>
    intro h
    have ha : is_ctrl a = false := h a (List.mem_cons_self _ _)
    cases t with
    | nil => simp [strip_ctrl, ha]
    | cons d rest =>
      have ht : ∀ c ∈ d :: rest, is_ctrl c = false :=
        fun c hc => h c (List.mem_cons_of_mem _ hc)
      simp only [strip_ctrl, ha, Bool.false_eq_true, if_false]
      rw [ih ht]

/-- C6 (corrected): the repair function is idempotent on every input whose
repaired form is free of mojibake markers — i.e. whenever the 3-pass budget
sufficed.  (The claim's unconditional idempotence fails: see the
counterexample, a 4-level mojibake string that still carries markers after
three passes and so changes again on a second application.) -/
theorem c6_repair_idempotent_when_markers_cleared (s : List ℕ)
    (h : has_marker (repair_text_encoding s) = false) :
    repair_text_encoding (repair_text_encoding s) = repair_text_encoding s := by
  unfold repair_text_encoding nfc at h ⊢
  set y := strip_ctrl (repair_passes 3 s) with hy_def
  have hy : repair_passes 3 y = y := by
    show repair_passes (2 + 1) y = y
    rw [repair_passes, h]
    simp
  rw [hy]
  exact strip_ctrl_clean _ (fun c hc => strip_ctrl_no_ctrl _ c hc)

/-- Witness for C6: a single-level mojibake string is fully repaired within
the pass budget, and on it repair is indeed idempotent. -/
theorem c6_repair_idempotent_witness :
    has_marker (repair_text_encoding moji_level1) = false ∧
    repair_text_encoding (repair_text_encoding moji_level1) =
      repair_text_encoding moji_level1 :=
  ⟨by decide, c6_repair_idempotent_when_markers_cleared moji_level1 (by decide)⟩

/-- Counterexample to C6 as stated: on the 4-level mojibake encoding of "б"
the three decoding passes stop while markers remain, so a second application
of `repair_text_encoding` changes the string again — repair is not
idempotent. -/
theorem c6_repair_not_idempotent_counterexample :
    repair_text_encoding (repair_text_encoding moji_level4) ≠
      repair_text_encoding moji_level4 := by decide

/-! ## Helper lemmas for the feature normalizer -/

theorem parse_inputs_go_ok :
    ∀ (ds : List (String × ℚ)) (payload : List (String × RawValue))
      (fs : List ℚ) (ns : List (String × ℚ)),
      parse_inputs_go payload ds = .ok (fs, ns) →
      fs.length = ds.length ∧ ns.map Prod.fst = ds.map Prod.fst ∧
        fs = ns.map Prod.snd := by
  intro ds
  induction ds with
  | nil =>
    intro payload fs ns h
    simp only [parse_inputs_go, Except.ok.injEq, Prod.mk.injEq] at h
    obtain ⟨h1, h2⟩ := h
    subst h1; subst h2
    simp
  | cons hd tl ih =>
    intro payload fs ns h
    obtain ⟨key, default⟩ := hd
    cases hco : float_coerce (raw_chosen payload key default) with
    | error e => simp [parse_inputs_go, hco] at h
    | ok value =>
      cases hrec : parse_inputs_go payload tl with
      | error e => simp [parse_inputs_go, hco, hrec] at h
      | ok pr =>
        obtain ⟨fs', ns'⟩ := pr
        simp only [parse_inputs_go, hco, hrec, Except.ok.injEq, Prod.mk.injEq] at h
        obtain ⟨h1, h2⟩ := h
        subst h1; subst h2
        obtain ⟨l1, l2, l3⟩ := ih payload fs' ns' hrec
        refine ⟨by simp [l1], by simp [l2], by simp [l3]⟩

theorem parse_inputs_go_error :
    ∀ (ds : List (String × ℚ)) (payload : List (String × RawValue)) (msg : String),
      parse_inputs_go payload ds = .error msg →
      ∃ k d, (k, d) ∈ ds ∧ float_coerce (raw_chosen payload k d) = .error msg := by
  intro ds
  induction ds with
  | nil => intro payload msg h; simp [parse_inputs_go] at h
  | cons hd tl ih =>
    intro payload msg h
    obtain ⟨key, default⟩ := hd
    cases hco : float_coerce (raw_chosen payload key default) with
    | error e =>
      simp only [parse_inputs_go, hco, Except.error.injEq] at h
      subst h
      exact ⟨key, default, List.mem_cons_self _ _, hco⟩
    | ok value =>
      cases hrec : parse_inputs_go payload tl with
      | error e =>
        simp only [parse_inputs_go, hco, hrec, Except.error.injEq] at h
        subst h
        obtain ⟨k, d, hmem, hco'⟩ := ih payload e hrec
        exact ⟨k, d, List.mem_cons_of_mem _ hmem, hco'⟩
      | ok pr =>
        obtain ⟨fs', ns'⟩ := pr
        simp [parse_inputs_go, hco, hrec] at h

/-- C5 (corrected): the normalizer is all-or-nothing — on success it returns
the full 13-element vector in canonical order (no partial vector exists by
construction, since any coercion failure propagates immediately), and on
failure the reported message is exactly the Python coercion-failure text of
the offending raw value.  That text names the raw value for string inputs,
but — contrary to the claim — it never names the offending biomarker key
(`parse_patient_inputs` re-raises `ValueError(str(exc))`, and neither
CPython message mentions the dictionary key): see the counterexample. -/
theorem c5_normalizer_all_or_nothing (payload : List (String × RawValue)) :
    (∀ (fs : List ℚ) (ns : List (String × ℚ)),
      parse_patient_inputs payload = .ok (fs, ns) →
      fs.length = 13 ∧ ns.map Prod.fst = FEATURE_DEFAULTS.map Prod.fst ∧
        fs = ns.map Prod.snd) ∧
    (∀ msg : String, parse_patient_inputs payload = .error msg →
      ∃ k d, (k, d) ∈ FEATURE_DEFAULTS ∧
        float_coerce (raw_chosen payload k d) = .error msg) := by
  constructor
  · intro fs ns h
    obtain ⟨l1, l2, l3⟩ := parse_inputs_go_ok FEATURE_DEFAULTS payload fs ns h
    exact ⟨l1, l2, l3⟩
  · intro msg h
    exact parse_inputs_go_error FEATURE_DEFAULTS payload msg h

/-- Witness for C5: on the empty payload every default coerces and the full
13-element vector is produced; on a payload with an unparsable bilirubin
string the failure is the coercion error of that raw value. -/
theorem c5_normalizer_witness :
    ((FEATURE_DEFAULTS.map Prod.snd).length = 13 ∧
      (FEATURE_DEFAULTS.map Prod.fst) = FEATURE_DEFAULTS.map Prod.fst ∧
      FEATURE_DEFAULTS.map Prod.snd = (FEATURE_DEFAULTS.map Prod.snd)) ∧
    (∃ k d, (k, d) ∈ FEATURE_DEFAULTS ∧
      float_coerce (raw_chosen [("bilirubin", RawValue.str "abc")] k d) =
        .error "could not convert string to float: 'abc'") := by
  constructor
  · have h := (c5_normalizer_all_or_nothing []).1 (FEATURE_DEFAULTS.map Prod.snd)
      FEATURE_DEFAULTS (by rfl)
    obtain ⟨h1, h2, h3⟩ := h
    refine ⟨h1, h2, ?_⟩
    conv_lhs => rw [h3]
  · exact (c5_normalizer_all_or_nothing [("bilirubin", RawValue.str "abc")]).2
      "could not convert string to float: 'abc'" (by rfl)

/-- Counterexample to C5 as stated: for the payload carrying the unparsable
string "abc" under the key "bilirubin", the raised failure text is the
CPython coercion message, which contains the raw value but does not contain
the offending key anywhere. -/
theorem c5_error_lacks_key_counterexample :
    parse_patient_inputs [("bilirubin", RawValue.str "abc")] =
      .error "could not convert string to float: 'abc'" ∧
    "'abc'".toList <:+: "could not convert string to float: 'abc'".toList ∧
    ¬ ("bilirubin".toList <:+: "could not convert string to float: 'abc'".toList) := by
  refine ⟨by rfl, by decide, by decide⟩

/-! ## Helper lemmas for the rule-based scorer -/

theorem exp_one_bounds : (2.71 : ℝ) < Real.exp 1 ∧ Real.exp 1 < 2.72 :=
  ⟨lt_trans (by norm_num) Real.exp_one_gt_d9,
   lt_trans Real.exp_one_lt_d9 (by norm_num)⟩

theorem exp_seven_bounds : (1073 : ℝ) < Real.exp 7 ∧ Real.exp 7 < 1102 := by
  have h : Real.exp 7 = Real.exp 1 ^ 7 := by
    rw [← Real.exp_nat_mul]; norm_num
  have h0 : (0 : ℝ) ≤ Real.exp 1 := (Real.exp_pos 1).le
  constructor
  · rw [h]
    have h1 : (2.71 : ℝ) ^ 7 < Real.exp 1 ^ 7 :=
      pow_lt_pow_left₀ exp_one_bounds.1 (by norm_num) (by norm_num)
    have h2 : (1073 : ℝ) < 2.71 ^ 7 := by norm_num
    linarith
  · rw [h]
    have h1 : Real.exp 1 ^ 7 < (2.72 : ℝ) ^ 7 :=
      pow_lt_pow_left₀ exp_one_bounds.2 h0 (by norm_num)
    have h2 : (2.72 : ℝ) ^ 7 < 1102 := by norm_num
    linarith

theorem exp_one_point_four_bounds :
    (3.8 : ℝ) < Real.exp 1.4 ∧ Real.exp 1.4 < 4.2 := by
  have h5 : Real.exp 1.4 ^ 5 = Real.exp 7 := by
    rw [← Real.exp_nat_mul]; norm_num
  have hpos : (0 : ℝ) < Real.exp 1.4 := Real.exp_pos _
  constructor
  · apply lt_of_pow_lt_pow_left₀ 5 hpos.le
    rw [h5]
    have := exp_seven_bounds.1
    norm_num
    linarith
  · apply lt_of_pow_lt_pow_left₀ 5 (by norm_num : (0:ℝ) ≤ 4.2)
    rw [h5]
    have := exp_seven_bounds.2
    norm_num
    linarith

theorem sigmoid_one_point_four_bounds :
    (0.79 : ℝ) < sigmoid 1.4 ∧ sigmoid 1.4 < 0.81 := by
  have hE := exp_one_point_four_bounds
  have hEpos : (0 : ℝ) < Real.exp 1.4 := Real.exp_pos _
  have hform : sigmoid 1.4 = Real.exp 1.4 / (Real.exp 1.4 + 1) := by
    unfold sigmoid
    rw [Real.exp_neg]
    field_simp
  rw [hform]
  constructor
  · rw [lt_div_iff₀ (by linarith)]
    linarith [hE.1]
  · rw [div_lt_iff₀ (by linarith)]
    linarith [hE.2]

/-- C1: for every 13-element feature vector the rule-based scorer returns
`(class, probability)` with
`probability = clamp(sigmoid(clamp(risk_score*3 - 1, -3, 3)), 0.1, 0.95)`,
so the probability always lies in [0.1, 0.95] ⊆ [0, 1] and `class = 1` iff
`probability > 0.5`; for the scenario input (bilirubin 25, glucose 7.0,
plt 360, all others crossing no rule threshold) the risk score is
0.35 + 0.25 + 0.2 = 0.8, the scaled score 1.4, the probability within 0.01
of 0.80, and the class 1. -/
theorem c1_rule_based_scorer :
    (∀ f : Features,
      rule_based_prediction f =
        (if max 0.1 (min 0.95 (sigmoid ((scaled_score f : ℚ) : ℝ))) > 0.5 then 1 else 0,
         max 0.1 (min 0.95 (sigmoid ((scaled_score f : ℚ) : ℝ)))) ∧
      scaled_score f = max (-3.0) (min 3.0 (risk_score f * 3.0 - 1.0)) ∧
      0.1 ≤ (rule_based_prediction f).2 ∧ (rule_based_prediction f).2 ≤ 0.95 ∧
      0 ≤ (rule_based_prediction f).2 ∧ (rule_based_prediction f).2 ≤ 1 ∧
      ((rule_based_prediction f).1 = 1 ↔ (rule_based_prediction f).2 > 0.5) ∧
      ((rule_based_prediction f).1 = 0 ∨ (rule_based_prediction f).1 = 1)) ∧
    risk_score scenario_input = 0.8 ∧
    scaled_score scenario_input = 1.4 ∧
    |(rule_based_prediction scenario_input).2 - 0.8| < 0.01 ∧
    (rule_based_prediction scenario_input).1 = 1 := by
  have hscen_scaled : scaled_score scenario_input = 1.4 := by decide
  have hcast : ((scaled_score scenario_input : ℚ) : ℝ) = 1.4 := by
    rw [hscen_scaled]; norm_num
  have hsig := sigmoid_one_point_four_bounds
  have hprob : rb_probability scenario_input = sigmoid 1.4 := by
    unfold rb_probability
    rw [hcast]
    rw [min_eq_right (by linarith [hsig.2] : sigmoid 1.4 ≤ (0.95 : ℝ))]
    rw [max_eq_right (by linarith [hsig.1] : (0.1 : ℝ) ≤ sigmoid 1.4)]
  refine ⟨?_, by decide, hscen_scaled, ?_, ?_⟩
  · intro f
    refine ⟨rfl, rfl, le_max_left _ _,
      max_le (by norm_num) (min_le_left _ _), ?_, ?_, ?_, ?_⟩
    · exact le_trans (by norm_num) (le_max_left _ _)
    · exact le_trans (max_le (by norm_num) (min_le_left _ _)) (by norm_num)
    · show rb_prediction f = 1 ↔ rb_probability f > 0.5
      unfold rb_prediction
      by_cases h : rb_probability f > 0.5
      · simp [h]
      · simp [h]
    · show rb_prediction f = 0 ∨ rb_prediction f = 1
      unfold rb_prediction
      by_cases h : rb_probability f > 0.5
      · right; simp [h]
      · left; simp [h]
  · show |rb_probability scenario_input - 0.8| < 0.01
    rw [hprob, abs_lt]
    constructor <;> linarith [hsig.1, hsig.2]
  · show rb_prediction scenario_input = 1
    unfold rb_prediction
    rw [hprob]
    rw [if_pos (by linarith [hsig.1])]

/-! ## Helper lemmas for the synthetic attribution ranker -/

theorem mock_le_trans (a b c : ShapRecord) (h1 : mock_le a b) (h2 : mock_le b c) :
    mock_le a c := by
  simp only [mock_le, decide_eq_true_eq] at h1 h2 ⊢
  exact le_trans h2 h1

theorem mock_le_total (a b : ShapRecord) : mock_le a b || mock_le b a := by
  simp only [mock_le, Bool.or_eq_true, decide_eq_true_eq]
  exact le_total b.importance a.importance

theorem pair_sublist_range {i j n : ℕ} (hij : i < j) (hjn : j < n) :
    List.Sublist [i, j] (List.range n) := by
  induction n with
  | zero => omega
  | succ n ih =>
    rw [List.range_succ]
    by_cases h : j = n
    · subst h
      have h1 : List.Sublist [i] (List.range j) :=
        List.singleton_sublist.mpr (List.mem_range.mpr hij)
      exact List.Sublist.append h1 (List.Sublist.refl [j])
    · have hj : j < n := by omega
      exact (ih hj).trans (List.sublist_append_left _ _)

/-- C7: for every 13-element feature vector, the synthetic attribution output
has length ≤ 9, is sorted by the `importance` magnitude in descending order,
ties keep original feature order (stability of the sort), and each record's
deterministic perturbation is `sin((value+1)*(index+1)*0.37) * 0.006`;
the output is a pure function of the input (reproducibility), being
`take 9` of a stable descending mergesort of the 13 per-feature records. -/
theorem c7_synthetic_attribution (f : Features) :
    (mock_shap_calculation f).length ≤ 9 ∧
    (mock_shap_calculation f).Pairwise (fun a b => b.importance ≤ a.importance) ∧
    (∀ i j : ℕ, i < j → j < 13 →
      (mk_mock_record f i).importance = (mk_mock_record f j).importance →
      List.Sublist [mk_mock_record f i, mk_mock_record f j]
        ((mock_shap_records f).mergeSort mock_le)) ∧
    (∀ i : ℕ, i < 13 →
      mock_final f i = ((feature_impacts f).getD i 0 : ℝ) +
        Real.sin ((((f.toList.getD i 0 : ℚ) : ℝ) + 1) * ((i : ℝ) + 1) * 0.37) * 0.006) ∧
    mock_shap_calculation f = ((mock_shap_records f).mergeSort mock_le).take 9 := by
  refine ⟨?_, ?_, ?_, ?_, rfl⟩
  · exact List.length_take_le 9 _
  · have hs := List.sorted_mergeSort
      (fun a b c => mock_le_trans a b c) (fun a b => mock_le_total a b)
      (mock_shap_records f)
    have hs' : ((mock_shap_records f).mergeSort mock_le).Pairwise
        (fun a b => b.importance ≤ a.importance) := by
      refine hs.imp ?_
      intro a b h
      simpa [mock_le, decide_eq_true_eq] using h
    exact hs'.sublist (List.take_sublist 9 _)
  · intro i j hij hj13 himp
    apply List.pair_sublist_mergeSort
      (fun a b c => mock_le_trans a b c) (fun a b => mock_le_total a b)
    · simp only [mock_le, himp, decide_eq_true_eq]
      exact le_of_eq rfl
    · have hrange : List.Sublist [i, j] (List.range 13) := pair_sublist_range hij hj13
      have := hrange.map (mk_mock_record f)
      simpa [mock_shap_records] using this
  · intro i _
    rfl

/-- C10 (implicit): every attribution record emitted by either attribution
path (real SHAP wrapping or the synthetic fallback) is labeled "positive"
exactly when the underlying attribution value is strictly greater than 0 and
"negative" otherwise; "neutral" is never produced, and an exactly-zero value
is labeled "negative". -/
theorem c10_attribution_direction (vs : List ℝ) (f : Features) :
    (real_shap_records vs).Forall (fun r =>
      r.impact ≠ "neutral" ∧ (r.impact = "positive" ↔ 0 < r.value) ∧
      (r.impact = "negative" ↔ r.value ≤ 0)) ∧
    (mock_shap_calculation f).Forall (fun r =>
      r.impact ≠ "neutral" ∧ ∃ i : ℕ, i < 13 ∧ r = mk_mock_record f i ∧
        (r.impact = "positive" ↔ 0 < mock_final f i) ∧
        (r.impact = "negative" ↔ mock_final f i ≤ 0)) := by
  constructor
  · rw [List.forall_iff_forall_mem]
    intro r hr
    obtain ⟨⟨idx, v⟩, _, rfl⟩ := List.mem_map.mp hr
    by_cases h : (0 : ℝ) < v
    · refine ⟨?_, ?_, ?_⟩
      · show (if (0:ℝ) < v then "positive" else "negative") ≠ "neutral"
        rw [if_pos h]; decide
      · show (if (0:ℝ) < v then "positive" else "negative") = "positive" ↔ 0 < v
        rw [if_pos h]
        exact iff_of_true rfl h
      · show (if (0:ℝ) < v then "positive" else "negative") = "negative" ↔ v ≤ 0
        rw [if_pos h]
        exact iff_of_false (by decide) (not_le.mpr h)
    · refine ⟨?_, ?_, ?_⟩
      · show (if (0:ℝ) < v then "positive" else "negative") ≠ "neutral"
        rw [if_neg h]; decide
      · show (if (0:ℝ) < v then "positive" else "negative") = "positive" ↔ 0 < v
        rw [if_neg h]
        exact iff_of_false (by decide) h
      · show (if (0:ℝ) < v then "positive" else "negative") = "negative" ↔ v ≤ 0
        rw [if_neg h]
        exact iff_of_true rfl (not_lt.mp h)
  · rw [List.forall_iff_forall_mem]
    intro r hr
    have hr1 : r ∈ (mock_shap_records f).mergeSort mock_le :=
      List.take_subset 9 _ hr
    have hr2 : r ∈ mock_shap_records f := List.mem_mergeSort.mp hr1
    obtain ⟨i, hi, rfl⟩ := List.mem_map.mp hr2
    have hi13 : i < 13 := List.mem_range.mp hi
    by_cases h : (0 : ℝ) < mock_final f i
    · refine ⟨?_, i, hi13, rfl, ?_, ?_⟩
      · show (if (0:ℝ) < mock_final f i then "positive" else "negative") ≠ "neutral"
        rw [if_pos h]; decide
      · show (if (0:ℝ) < mock_final f i then "positive" else "negative") = "positive" ↔
          0 < mock_final f i
        rw [if_pos h]
        exact iff_of_true rfl h
      · show (if (0:ℝ) < mock_final f i then "positive" else "negative") = "negative" ↔
          mock_final f i ≤ 0
        rw [if_pos h]
        exact iff_of_false (by decide) (not_le.mpr h)
    · refine ⟨?_, i, hi13, rfl, ?_, ?_⟩
      · show (if (0:ℝ) < mock_final f i then "positive" else "negative") ≠ "neutral"
        rw [if_neg h]; decide
      · show (if (0:ℝ) < mock_final f i then "positive" else "negative") = "positive" ↔
          0 < mock_final f i
        rw [if_neg h]
        exact iff_of_false (by decide) h
      · show (if (0:ℝ) < mock_final f i then "positive" else "negative") = "negative" ↔
          mock_final f i ≤ 0
        rw [if_neg h]
        exact iff_of_true rfl (not_lt.mp h)

/-- Witness for C7 at a concrete input with an exact importance tie between
original indices 8 and 9: the tied pair keeps its original order in the
sorted list. -/
theorem c7_synthetic_attribution_witness :
    List.Sublist [mk_mock_record tie_input 8, mk_mock_record tie_input 9]
      ((mock_shap_records tie_input).mergeSort mock_le) := by
  have h8 : (feature_impacts tie_input).getD 8 0 = ((-291 : ℚ)/8200) := by decide
  have h9 : (feature_impacts tie_input).getD 9 0 = ((-291 : ℚ)/8200) := by decide
  have ht8 : tie_input.toList.getD 8 0 = ((-5 : ℚ)/82) := by decide
  have ht9 : tie_input.toList.getD 9 0 = ((-127 : ℚ)/820) := by decide
  have harg : ((((-5 : ℚ)/82 : ℚ) : ℝ) + 1) * (((8 : ℕ) : ℝ) + 1) * 0.37 =
      ((((-127 : ℚ)/820 : ℚ) : ℝ) + 1) * (((9 : ℕ) : ℝ) + 1) * 0.37 := by
    push_cast
    norm_num
  have hfin : mock_final tie_input 8 = mock_final tie_input 9 := by
    unfold mock_final
    rw [h8, h9, ht8, ht9, harg]
  have himp : (mk_mock_record tie_input 8).importance =
      (mk_mock_record tie_input 9).importance := by
    show |mock_final tie_input 8| = |mock_final tie_input 9|
    rw [hfin]
  exact (c7_synthetic_attribution tie_input).2.2.1 8 9 (by norm_num)
    (by norm_num) himp

/-! ## Helper lemmas for the calibration curve -/

theorem in_bin_iff (bins idx : ℕ) (p : ℚ) :
    in_bin bins idx p = true ↔
      bin_lower bins idx ≤ p ∧
        (p < bin_upper bins idx ∨ (idx = bins - 1 ∧ p ≤ bin_upper bins idx)) := by
  simp [in_bin]

theorem bin_unique {bins : ℕ} {a b : ℕ} (ha : a < bins) (hbb : b < bins)
    (p : ℚ) (hA : in_bin bins a p = true) (hB : in_bin bins b p = true) :
    a = b := by
  by_contra hne
  wlog hab : a < b generalizing a b
  · exact this hbb ha hB hA (Ne.symm hne) (by omega)
  have ha' : a ≠ bins - 1 := by omega
  rw [in_bin_iff] at hA hB
  have h1 : p < bin_upper bins a := by
    rcases hA.2 with h | h
    · exact h
    · exact absurd h.1 ha'
  have hbQ : (0 : ℚ) < (bins : ℚ) := by
    have : 0 < bins := by omega
    exact_mod_cast this
  have hua : bin_upper bins a = ((a : ℚ) + 1) / (bins : ℚ) := by
    simp [bin_upper, ha']
  have hle : ((a : ℚ) + 1) / (bins : ℚ) ≤ (b : ℚ) / (bins : ℚ) := by
    rw [div_le_div_iff_of_pos_right hbQ]
    exact_mod_cast (by omega : a + 1 ≤ b)
  have hlb : bin_lower bins b ≤ p := hB.1
  have hlb' : (b : ℚ) / (bins : ℚ) ≤ p := hlb
  rw [hua] at h1
  linarith

theorem bin_exists {bins : ℕ} (hb : 0 < bins) {p : ℚ} (h0 : 0 ≤ p) (h1 : p ≤ 1) :
    ∃ idx, idx < bins ∧ in_bin bins idx p = true := by
  have hbQ : (0 : ℚ) < (bins : ℚ) := by exact_mod_cast hb
  by_cases hp1 : p = 1
  · refine ⟨bins - 1, by omega, ?_⟩
    rw [in_bin_iff]
    subst hp1
    refine ⟨?_, Or.inr ⟨rfl, ?_⟩⟩
    · show ((bins - 1 : ℕ) : ℚ) / (bins : ℚ) ≤ 1
      rw [div_le_one hbQ]
      exact_mod_cast Nat.sub_le bins 1
    · simp [bin_upper]
  · have hplt : p < 1 := lt_of_le_of_ne h1 hp1
    have hk0 : 0 ≤ ⌊p * (bins : ℚ)⌋ := Int.floor_nonneg.mpr (by positivity)
    have hklt : ⌊p * (bins : ℚ)⌋ < (bins : ℤ) := by
      rw [Int.floor_lt]
      push_cast
      nlinarith
    refine ⟨(⌊p * (bins : ℚ)⌋).toNat, by omega, ?_⟩
    rw [in_bin_iff]
    have hcast : (((⌊p * (bins : ℚ)⌋).toNat : ℕ) : ℚ) = ((⌊p * (bins : ℚ)⌋ : ℤ) : ℚ) := by
      exact_mod_cast Int.toNat_of_nonneg hk0
    constructor
    · show (((⌊p * (bins : ℚ)⌋).toNat : ℕ) : ℚ) / (bins : ℚ) ≤ p
      rw [hcast, div_le_iff₀ hbQ]
      exact Int.floor_le (p * (bins : ℚ))
    · left
      by_cases hlast : (⌊p * (bins : ℚ)⌋).toNat = bins - 1
      · show p < bin_upper bins (⌊p * (bins : ℚ)⌋).toNat
        simp only [bin_upper, hlast, if_pos]
        exact hplt
      · show p < bin_upper bins (⌊p * (bins : ℚ)⌋).toNat
        rw [bin_upper, if_neg hlast, lt_div_iff₀ hbQ]
        have hfl := Int.lt_floor_add_one (p * (bins : ℚ))
        calc p * (bins : ℚ) < ((⌊p * (bins : ℚ)⌋ : ℤ) : ℚ) + 1 := hfl
        _ = (((⌊p * (bins : ℚ)⌋).toNat : ℕ) : ℚ) + 1 := by rw [hcast]

/-- C8 (corrected): for every non-empty list of (probability, 0/1-label)
pairs and positive bin count, the calibration summary's bin boundaries
partition [0,1] into exactly `bins` contiguous, non-overlapping, equal-width
intervals; every labeled point with probability in [0,1] falls in exactly one
bin; each bin reports the count (with mean predicted probability and observed
rate) of its bucket; and the reported Brier score is the mean of
`(probability - label)^2` over all labeled rows **rounded to 6 decimal
places** (the Python code applies `round(..., 6)`, so exact equality with the
mean squared error fails in general — see the counterexample). -/
theorem c8_calibration_curve (points : List (ℚ × ℤ)) (bins : ℕ)
    (hbins : 0 < bins) (hne : points ≠ []) :
    (calibration_curve points bins).bins =
      (List.range bins).map (mk_cal_bin points bins) ∧
    (calibration_curve points bins).sampled = points.length ∧
    bin_lower bins 0 = 0 ∧
    bin_upper bins (bins - 1) = 1 ∧
    (∀ idx, idx < bins →
      bin_upper bins idx - bin_lower bins idx = 1 / (bins : ℚ)) ∧
    (∀ idx, idx + 1 < bins → bin_upper bins idx = bin_lower bins (idx + 1)) ∧
    (∀ p l, (p, l) ∈ points → 0 ≤ p → p ≤ 1 →
      ∃! idx, idx < bins ∧ in_bin bins idx p = true) ∧
    (∀ idx, (mk_cal_bin points bins idx).count =
      (points.filter (fun pl => in_bin bins idx pl.1)).length) ∧
    (calibration_curve points bins).brier_score =
      some (py_round6
        ((points.map (fun pl => (pl.1 - (pl.2 : ℚ)) ^ 2)).sum / (points.length : ℚ))) := by
  have hempty : points.isEmpty = false := by
    rw [List.isEmpty_eq_false]
    exact hne
  have hbQ : (0 : ℚ) < (bins : ℚ) := by exact_mod_cast hbins
  refine ⟨?_, ?_, ?_, ?_, ?_, ?_, ?_, ?_, ?_⟩
  · simp [calibration_curve, hempty]
  · simp [calibration_curve, hempty]
  · simp [bin_lower]
  · simp [bin_upper]
  · intro idx hidx
    by_cases h : idx = bins - 1
    · subst h
      simp only [bin_upper, if_pos, bin_lower]
      have hcast : ((bins - 1 : ℕ) : ℚ) = (bins : ℚ) - 1 := by
        have h1 : 1 ≤ bins := hbins
        push_cast [Nat.cast_sub h1]
        ring
      rw [hcast]
      field_simp
    · simp only [bin_upper, if_neg h, bin_lower]
      field_simp
  · intro idx h
    have h' : idx ≠ bins - 1 := by omega
    simp only [bin_upper, if_neg h', bin_lower]
    push_cast
    ring
  · intro p l hmem h0 h1
    obtain ⟨idx, hidx, hin⟩ := bin_exists hbins h0 h1
    refine ⟨idx, ⟨hidx, hin⟩, ?_⟩
    intro idx' ⟨hidx', hin'⟩
    exact bin_unique hidx' hidx p hin' hin
  · intro idx
    simp only [mk_cal_bin]
    split
    · rename_i hempty'
      rw [List.isEmpty_iff] at hempty'
      simp [hempty']
    · rfl
  · simp [calibration_curve, hempty]

/-- Witness for C8 at a concrete labeled batch: the point 1/2 with label 1
falls in exactly one of the 5 default bins. -/
theorem c8_calibration_curve_witness :
    ∃! idx, idx < 5 ∧ in_bin 5 idx ((1 : ℚ)/2) = true :=
  (c8_calibration_curve [((1 : ℚ)/2, (1 : ℤ))] 5 (by decide)
      (by decide)).2.2.2.2.2.2.1
    ((1 : ℚ)/2) 1 (by decide) (by decide) (by decide)

/-- Counterexample to C8 as stated: for a single labeled point whose squared
error has more than 6 decimal places, the reported Brier score is the rounded
value and differs from the exact mean squared error. -/
theorem c8_brier_not_exact_counterexample :
    (calibration_curve [((1234567 : ℚ)/10000000, (1 : ℤ))] 5).brier_score ≠
      some (((((1234567 : ℚ)/10000000) - 1) ^ 2) / 1) ∧
    (calibration_curve [((1234567 : ℚ)/10000000, (1 : ℤ))] 5).brier_score =
      some (py_round6 (((((1234567 : ℚ)/10000000) - 1) ^ 2) / 1)) := by
  constructor
  · decide
  · decide

/-- C9: for locale "ru", audience "patient", for every (prediction,
probability, attribution list), the deterministic fallback narrative contains
the Russian probability-label line of the (ru, patient) bundle
("Оценка риска"), and contains exactly 5 top-factor bullet lines as a
contiguous block — the bullets of the supplied records padded with the
bundle's default-driver bullet whenever fewer than 5 records were supplied —
and the returned narrative is the newline join of those lines. -/
theorem c9_ru_patient_fallback (prediction : ℕ) (probability : ℝ)
    (shap : List ShapRecord) :
    (ru_patient_probability_label ++ ": " ++ format_pct probability) ∈
      fallback_lines_ru_patient probability shap ∧
    ru_top_factor_lines shap =
      (shap.take 5).map ru_top_factor_line ++
        List.replicate (5 - ((shap.take 5).map ru_top_factor_line).length)
          ("- " ++ ru_patient_default_driver) ∧
    (ru_top_factor_lines shap).length = 5 ∧
    (ru_top_factor_lines shap).Forall (fun l => ∃ rest, l = "- " ++ rest) ∧
    (ru_top_factor_lines shap) <:+: fallback_lines_ru_patient probability shap ∧
    generate_fallback_commentary_ru_patient prediction probability shap =
      String.intercalate "\n" (fallback_lines_ru_patient probability shap) := by
  refine ⟨?_, rfl, ?_, ?_, ?_, rfl⟩
  · simp [fallback_lines_ru_patient]
  · have hlen : ((shap.take 5).map ru_top_factor_line).length ≤ 5 := by
      rw [List.length_map]
      exact List.length_take_le 5 shap
    simp only [ru_top_factor_lines, List.length_append, List.length_replicate]
    omega
  · rw [List.forall_iff_forall_mem]
    intro l hl
    simp only [ru_top_factor_lines, List.mem_append] at hl
    rcases hl with hl | hl
    · obtain ⟨sv, _, rfl⟩ := List.mem_map.mp hl
      refine ⟨(match RU_FEATURE_LABELS.lookup (str_upper sv.feature) with
        | some lab => lab
        | Option.none => py_title ((str_upper sv.feature).replace "_" " ")) ++ ": " ++
          ru_impact_term sv.impact ++ " (" ++ format_signed_3 sv.value ++ ")", ?_⟩
      simp only [ru_top_factor_line, String.append_assoc]
    · have := List.eq_of_mem_replicate hl
      exact ⟨ru_patient_default_driver, this⟩
  · show ∃ s t, s ++ ru_top_factor_lines shap ++ t =
      fallback_lines_ru_patient probability shap
    refine ⟨[ru_patient_header (ru_risk_label (risk_level_of probability)),
      ru_patient_probability_label ++ ": " ++ format_pct probability,
      "", ru_patient_core_title,
      ru_patient_core_message (risk_level_of probability) (format_pct probability),
      "", ru_patient_drivers_title],
      [""] ++ [ru_patient_next_steps_title] ++
        (ru_patient_next_steps (risk_level_of probability)).map (fun item => "- " ++ item) ++
        [""] ++ [ru_patient_warnings_title] ++
        ru_patient_warning_signs.map (fun item => "- " ++ item) ++
        [""] ++ [ru_patient_support_title] ++
        ru_patient_support.map (fun item => "- " ++ item) ++
        [""] ++ [ru_patient_timeline_title] ++
        (ru_patient_timeline (risk_level_of probability)).map (fun item => "- " ++ item) ++
        [""] ++ [ru_patient_questions_title] ++
        ru_patient_questions.map (fun q => "- " ++ q) ++
        [""] ++ [ru_patient_reminder_title, ru_patient_reminder_text], ?_⟩
    simp [fallback_lines_ru_patient, List.append_assoc]

/-! ## Helper lemmas for the batch aggregator -/

theorem lookup_normalize_row :
    ∀ (ds : List (String × ℚ)) (row : Row) (k : String) (default : ℚ),
      (k, default) ∈ ds → ds.Pairwise (fun a b => a.1 ≠ b.1) →
      (ds.map (fun kd =>
        (kd.1, safe_float (pick_value row [kd.1, str_upper kd.1, str_capitalize kd.1]) kd.2))).lookup k =
        some (safe_float (pick_value row [k, str_upper k, str_capitalize k]) default) := by
  intro ds
  induction ds with
  | nil => intro row k default hmem _; simp at hmem
  | cons hd tl ih =>
    intro row k default hmem hnd
    obtain ⟨k', d'⟩ := hd
    by_cases hk : k = k'
    · subst hk
      have hd' : default = d' := by
        rcases List.mem_cons.mp hmem with heq | htl
        · exact (Prod.mk.injEq .. ▸ heq).2
        · exfalso
          have := List.pairwise_cons.mp hnd
          exact this.1 (k, default) htl rfl
      subst hd'
      simp [List.lookup]
    · rcases List.mem_cons.mp hmem with heq | htl
      · exact absurd ((Prod.mk.injEq .. ▸ heq).1) hk
      · have hbeq : (k == k') = false := beq_eq_false_iff_ne.mpr hk
        simp only [List.map_cons, List.lookup, hbeq]
        exact ih row k default htl (List.pairwise_cons.mp hnd).2

theorem lookup_num_payload :
    ∀ (entries : List (String × ℚ)) (k : String) (r : RawValue),
      (entries.map (fun kv => (kv.1, RawValue.num kv.2))).lookup k = some r →
      ∃ q, r = RawValue.num q := by
  intro entries
  induction entries with
  | nil => intro k r h; simp at h
  | cons hd tl ih =>
    intro k r h
    obtain ⟨k', q'⟩ := hd
    by_cases hk : (k == k') = true
    · simp only [List.map_cons, List.lookup, hk, Option.some.injEq] at h
      exact ⟨q', h.symm⟩
    · rw [Bool.not_eq_true] at hk
      simp only [List.map_cons, List.lookup, hk] at h
      exact ih k r h

theorem raw_chosen_num_payload (entries : List (String × ℚ)) (k : String) (d : ℚ) :
    ∃ q, raw_chosen (entries.map (fun kv => (kv.1, RawValue.num kv.2))) k d =
      RawValue.num q := by
  unfold raw_chosen
  cases hl : (entries.map (fun kv => (kv.1, RawValue.num kv.2))).lookup k with
  | none => exact ⟨d, rfl⟩
  | some r =>
    obtain ⟨q, rfl⟩ := lookup_num_payload entries k r hl
    exact ⟨q, rfl⟩

theorem parse_num_payload_ok :
    ∀ (ds : List (String × ℚ)) (entries : List (String × ℚ)),
      ∃ v, parse_inputs_go (entries.map (fun kv => (kv.1, RawValue.num kv.2))) ds =
        .ok v := by
  intro ds entries
  induction ds with
  | nil => exact ⟨([], []), rfl⟩
  | cons hd tl ih =>
    obtain ⟨key, default⟩ := hd
    obtain ⟨q, hq⟩ := raw_chosen_num_payload entries key default
    obtain ⟨⟨fs, ns⟩, hv⟩ := ih
    refine ⟨(q :: fs, (key, q) :: ns), ?_⟩
    simp only [parse_inputs_go, hq, float_coerce, hv]

theorem pipeline_on_nums_error (row : Row) (e : PipelineError)
    (h : execute_diagnostic_pipeline
      ((normalize_row row).map (fun kv => (kv.1, RawValue.num kv.2))) = .error e) :
    ∃ viols, e = PipelineError.validation_failed viols := by
  obtain ⟨⟨fs, ns⟩, hv⟩ := parse_num_payload_ok FEATURE_DEFAULTS (normalize_row row)
  have hv' : parse_patient_inputs
      ((normalize_row row).map (fun kv => (kv.1, RawValue.num kv.2))) = .ok (fs, ns) := hv
  unfold execute_diagnostic_pipeline at h
  rw [hv'] at h
  split at h
  · rename_i e' heq
    exact absurd heq (by simp)
  · rename_i features' normalized' heq
    by_cases hval : (validate_medical_data normalized').1 = false
    · simp only [hval, if_true, Except.error.injEq] at h
      exact ⟨(validate_medical_data normalized').2, h.symm⟩
    · simp [hval] at h

theorem process_rows_ok_spec :
    ∀ (rows : List Row) (idx : ℕ) (st : BatchState) (max_rows : ℕ) (st' : BatchState),
      process_rows max_rows rows idx st = .ok st' →
      st'.results.length + st'.errors.length =
        st.results.length + st.errors.length + rows.length ∧
      (∀ e ∈ st'.errors, e ∈ st.errors ∨
        ∃ viols, e.error = PipelineError.validation_failed viols) := by
  intro rows
  induction rows with
  | nil =>
    intro idx st max_rows st' h
    simp only [process_rows, Except.ok.injEq] at h
    subst h
    exact ⟨by simp, fun e he => Or.inl he⟩
  | cons row rest ih =>
    intro idx st max_rows st' h
    simp only [process_rows] at h
    split at h
    · exact absurd h (by simp)
    · split at h
      · rename_i e hpe
        obtain ⟨hcount, herr⟩ := ih (idx + 1) _ max_rows st' h
        constructor
        · simp at hcount ⊢
          omega
        · intro e' he'
          rcases herr e' he' with hmem | hval
          · rcases List.mem_append.mp hmem with hold | hnew
            · exact Or.inl hold
            · right
              have : e' = ⟨idx, e⟩ := List.mem_singleton.mp hnew
              subst this
              exact pipeline_on_nums_error row e hpe
          · exact Or.inr hval
      · rename_i analysis hpa
        obtain ⟨hcount, herr⟩ := ih (idx + 1) _ max_rows st' h
        constructor
        · revert hcount
          cases hpl : parse_label row <;> (intro hcount; simp at hcount ⊢; omega)
        · intro e' he'
          rcases herr e' he' with hmem | hval
          · left
            revert hmem
            cases hpl : parse_label row <;> exact fun hmem => hmem
          · exact Or.inr hval

/-- C2 (corrected): a batch-row biomarker value that cannot be coerced to a
number is silently replaced by the feature's declared default by
`_safe_float` inside `_normalize_row` — the row is NOT reported as an error.
Consequently a batch in which one row carries an un-coercible value (and all
normalized values, including the substituted defaults, pass validation)
yields N successes and zero error entries, and more generally the batch
error list can only ever contain range-validation failures, never
invalid-numeric reports. -/
theorem c2_batch_invalid_numeric_defaulted :
    (∀ (row : Row) (k : String) (default : ℚ) (s : String),
      (k, default) ∈ FEATURE_DEFAULTS →
      pick_value row [k, str_upper k, str_capitalize k] = some s →
      pyFloat? s = Option.none →
      (normalize_row row).lookup k = some default) ∧
    (∀ (rows : List Row) (max_records : Option ℕ) (st : BatchState),
      process_batch_csv rows max_records = .ok st →
      st.results.length + st.errors.length = rows.length ∧
      ∀ e ∈ st.errors,
        ∃ viols, e.error = PipelineError.validation_failed viols) := by
  constructor
  · intro row k default s hmem hpick hfail
    have hnd : FEATURE_DEFAULTS.Pairwise (fun a b => a.1 ≠ b.1) := by decide
    have h := lookup_normalize_row FEATURE_DEFAULTS row k default hmem hnd
    have hsf : safe_float (some s) default = default := by
      simp only [safe_float, hfail]
    rw [hpick, hsf] at h
    exact h
  · intro rows max_records st h
    obtain ⟨hcount, herr⟩ :=
      process_rows_ok_spec rows 1 init_batch_state (effective_cap max_records) st h
    refine ⟨by simpa [init_batch_state] using hcount, ?_⟩
    intro e he
    rcases herr e he with hmem | hval
    · simp [init_batch_state] at hmem
    · exact hval

/-- Witness for C2: on the concrete row with bilirubin cell "abc" the
normalizer silently substitutes the declared default 17.0, and an empty batch
trivially satisfies the count equation. -/
theorem c2_batch_invalid_numeric_defaulted_witness :
    (normalize_row row_bad).lookup "bilirubin" = some 17.0 ∧
    init_batch_state.results.length + init_batch_state.errors.length =
      ([] : List Row).length :=
  ⟨c2_batch_invalid_numeric_defaulted.1 row_bad "bilirubin" 17.0 "abc"
      (by decide) (by rfl) (by rfl),
   (c2_batch_invalid_numeric_defaulted.2 [] Option.none init_batch_state (by rfl)).1⟩

/-- Counterexample to C2 as stated: a 2-row batch whose second row has the
un-coercible bilirubin value "abc" produces 2 successes and 0 errors — not
N−1 successes and an error tagged with the row index — and the second row's
normalized bilirubin is the declared default 17.0. -/
theorem c2_batch_counterexample :
    ∃ st, process_batch_csv [row_ok, row_bad] Option.none = .ok st ∧
      st.results.length = 2 ∧ st.errors = [] ∧
      st.results.map (fun r => r.row) = [1, 2] ∧
      (st.results.getD 1 ⟨0, 0, 0, "", [], []⟩).patient_values.lookup "bilirubin" =
        some 17.0 :=
  ⟨_, rfl, rfl, rfl, rfl, rfl⟩

theorem process_rows_limit :
    ∀ (rows : List Row) (idx : ℕ) (st : BatchState) (cap : ℕ),
      idx ≤ cap + 1 → idx + rows.length > cap + 1 →
      ∃ st', process_rows cap rows idx st = .error (row_limit_msg cap, st') ∧
        st'.results.length + st'.errors.length =
          st.results.length + st.errors.length + (cap + 1 - idx) := by
  intro rows
  induction rows with
  | nil =>
    intro idx st cap h1 h2
    simp only [List.length_nil] at h2
    omega
  | cons row rest ih =>
    intro idx st cap h1 h2
    by_cases hgt : idx > cap
    · have hidx : idx = cap + 1 := by omega
      refine ⟨st, ?_, by omega⟩
      simp only [process_rows, if_pos hgt]
    · have hle : idx + 1 ≤ cap + 1 := by omega
      have hlen : idx + 1 + rest.length > cap + 1 := by
        simp only [List.length_cons] at h2
        omega
      simp only [process_rows, if_neg hgt]
      split
      · rename_i e hpe
        obtain ⟨st', hst', hcnt⟩ := ih (idx + 1) _ cap hle hlen
        refine ⟨st', hst', ?_⟩
        simp at hcnt
        omega
      · rename_i analysis hpa
        obtain ⟨st', hst', hcnt⟩ := ih (idx + 1) _ cap hle hlen
        refine ⟨st', hst', ?_⟩
        revert hcnt
        cases hpl : parse_label row <;> (intro hcnt; simp at hcnt; omega)

/-- C3 (corrected): a batch with more data rows than the configured cap
(default 250; a supplied cap of `None` or `0` falls back to the default)
fails as a whole with the row-limit `ValueError`, and no partial output is
returned to the caller; however the limit check runs at the top of each loop
iteration, so — contrary to the claim — the first `cap` rows HAVE been
normalized, scored and accumulated by the time the violation is detected
(their results are discarded when the exception propagates): exactly `cap`
rows sit in the internal accumulators at the moment of the raise. -/
theorem c3_row_limit_after_cap_rows (rows : List Row) (max_records : Option ℕ)
    (h : rows.length > effective_cap max_records) :
    ∃ st, process_batch_csv rows max_records =
        .error (row_limit_msg (effective_cap max_records), st) ∧
      st.results.length + st.errors.length = effective_cap max_records := by
  obtain ⟨st', hst', hcnt⟩ := process_rows_limit rows 1 init_batch_state
    (effective_cap max_records) (by omega) (by omega)
  refine ⟨st', hst', ?_⟩
  simpa [init_batch_state] using hcnt

/-- Witness for C3: a 2-row batch with an explicit cap of 1 raises the
row-limit error with exactly one row already processed. -/
theorem c3_row_limit_after_cap_rows_witness :
    ∃ st, process_batch_csv [row_ok, row_ok] (some 1) =
        .error (row_limit_msg (effective_cap (some 1)), st) ∧
      st.results.length + st.errors.length = effective_cap (some 1) :=
  c3_row_limit_after_cap_rows [row_ok, row_ok] (some 1) (by decide)

/-- Counterexample to C3 as stated: with a cap of 1 and two in-range rows,
the row-limit error is raised only after row 1 has been fully processed and
added to the results accumulator — the internal state at the raise holds one
successful row, refuting "raised before any row is processed". -/
theorem c3_row_processed_before_limit_counterexample :
    ∃ st, process_batch_csv [row_ok, row_ok] (some 1) =
        .error (row_limit_msg 1, st) ∧
      st.results.length = 1 ∧ st.errors = [] ∧
      st.results.map (fun r => r.row) = [1] :=
  ⟨_, rfl, rfl, rfl, rfl⟩

end PancreaticPredictor
